import Mathlib

/-!
Verification of the multi-agent routing core of this repository: session
state, intent classification, supervisor routing, specialist handlers,
the workflow graph and graceful degradation, shallowly embedded from the
Python sources (src/core/state.py, src/core/intent_classifier.py,
src/agents/base_agent.py, src/agents/supervisor.py, src/agents/code_agent.py,
src/agents/research_agent.py, src/agents/writing_agent.py,
src/agents/data_agent.py, src/core/graph_builder.py,
src/utils/error_handler.py).

Modelling conventions:
* Python floats carrying confidence values are modelled as rationals; the
  source only compares them, clamps them with min/max and multiplies one of
  them by 0.5, so the order structure is all that matters.
* `datetime` timestamps and the free-form `metadata` dict on messages are
  omitted: no claim mentions them.
* All calls to the language-model backend are abstracted by an oracle
  (structure `Env` below).  The text of prompts sent to the backend is not
  modelled, because in the model the oracle's answer is universally
  quantified and hence independent of the prompt text.
* Python exceptions are modelled by `Except` values and by explicit failure
  injection points in `Env` at exactly the places where the source wraps a
  block in try/except; a caught exception transfers control to the
  corresponding except clause.
* Python dict mutation is modelled by in-order association lists.
-/

/-- Agent identities, from `AgentType` in src/core/state.py. -/
inductive AgentType where
  | SUPERVISOR
  | RESEARCH
  | CODE
  | WRITING
  | DATA
  deriving DecidableEq, Repr

/-- String value of an agent identity (the `str`-enum payload in state.py). -/
def AgentType.value : AgentType → String
  | .SUPERVISOR => "supervisor"
  | .RESEARCH => "research"
  | .CODE => "code"
  | .WRITING => "writing"
  | .DATA => "data"

/-- Message roles, from `MessageRole` in src/core/state.py. -/
inductive MessageRole where
  | USER
  | ASSISTANT
  | SYSTEM
  deriving DecidableEq, Repr

/-- A conversation message, from `Message` in src/core/state.py
(timestamp and metadata omitted, see header). -/
structure Message where
  role : MessageRole
  content : String
  agent_type : Option AgentType
  deriving DecidableEq, Repr

/-- A routing record, from `AgentHandoff` in src/core/state.py
(timestamp omitted). -/
structure AgentHandoff where
  from_agent : AgentType
  to_agent : AgentType
  intent : String
  confidence : ℚ
  reasoning : String
  deriving DecidableEq, Repr

/-- Values stored in the task-scratch dicts of `WorkflowState`: the source
stores strings, lists of strings and one nested dict. -/
inductive TaskValue where
  | str : String → TaskValue
  | strs : List String → TaskValue
  | table : List (String × TaskValue) → TaskValue

/-- The central session state, from `WorkflowState` in src/core/state.py,
with the pydantic field defaults. -/
structure WorkflowState where
  messages : List Message := []
  current_user_input : String := ""
  current_agent : AgentType := AgentType.SUPERVISOR
  detected_intent : Option String := none
  intent_confidence : ℚ := 0
  handoff_history : List AgentHandoff := []
  error_count : Nat := 0
  last_error : Option String := none
  fallback_mode : Bool := false
  task_context : List (String × TaskValue) := []
  intermediate_results : List (String × String) := []
  should_continue : Bool := true
  final_response : Option String := none

/-- Python truthiness of an optional string (`if state.final_response:`):
false for `None` and for the empty string. -/
def pyTruthyStr : Option String → Bool
  | none => false
  | some t => !(t == "")

/-- Lower-casing a string character by character, the model of Python
`str.lower()` for the ASCII keyword lists used in the source. -/
def pyLower (s : String) : String :=
  String.mk (s.data.map Char.toLower)

/-- Whether `pat` occurs at the start of `l`. -/
def listStartsWith : List Char → List Char → Bool
  | [], _ => true
  | _ :: _, [] => false
  | p :: ps, c :: cs => p == c && listStartsWith ps cs

/-- Whether `pat` occurs anywhere inside `l` (model of Python `pat in s`). -/
def listSub (pat : List Char) : List Char → Bool
  | [] => pat.isEmpty
  | c :: cs => listStartsWith pat (c :: cs) || listSub pat cs

/-- Python `pat in s` on strings. -/
def strContains (s pat : String) : Bool :=
  listSub pat.data s.data

/-- In-order insert-or-replace for an association list, the model of a
Python dict assignment `d[k] = v`. -/
def dictInsert {α : Type} (d : List (String × α)) (k : String) (v : α) :
    List (String × α) :=
  match d with
  | [] => [(k, v)]
  | (k', v') :: rest =>
      if k' = k then (k, v) :: rest else (k', v') :: dictInsert rest k v

/-- Lookup in an association list, the model of Python `d.get(k, default)`. -/
def dictGet {α : Type} (d : List (String × α)) (k : String) (dflt : α) : α :=
  match d with
  | [] => dflt
  | (k', v') :: rest => if k' = k then v' else dictGet rest k dflt

/-- The apostrophe character, used to assemble source strings that contain
one. -/
def apos : String := String.mk [Char.ofNat 39]

/-- `WorkflowState.add_message` from src/core/state.py. -/
def WorkflowState.add_message (s : WorkflowState) (role : MessageRole)
    (content : String) (agent_type : Option AgentType) : WorkflowState :=
  { s with messages := s.messages ++ [⟨role, content, agent_type⟩] }

/-- `WorkflowState.add_handoff` from src/core/state.py: unconditionally
appends a handoff record. -/
def WorkflowState.add_handoff (s : WorkflowState) (from_agent to_agent : AgentType)
    (intent : String) (confidence : ℚ) (reasoning : String) : WorkflowState :=
  { s with handoff_history :=
      s.handoff_history ++ [⟨from_agent, to_agent, intent, confidence, reasoning⟩] }

/-- `WorkflowState.record_error` from src/core/state.py: increments the
error count, stores the message, and enables fallback mode from the third
error on. -/
def WorkflowState.record_error (s : WorkflowState) (error_message : String) :
    WorkflowState :=
  let ec := s.error_count + 1
  { s with
    error_count := ec
    last_error := some error_message
    fallback_mode := if 3 ≤ ec then true else s.fallback_mode }

/-- `WorkflowState.get_conversation_context` from src/core/state.py with the
default `max_messages = 10`. -/
def WorkflowState.get_conversation_context (s : WorkflowState) : String :=
  let recent := s.messages.drop (s.messages.length - 10)
  let parts := recent.map (fun m =>
    let role_str := match m.role with
      | MessageRole.USER => "USER"
      | MessageRole.ASSISTANT => "ASSISTANT"
      | MessageRole.SYSTEM => "SYSTEM"
    let agent_str := match m.agent_type with
      | some a => "[" ++ a.value ++ "]"
      | none => ""
    role_str ++ agent_str ++ ": " ++ m.content)
  String.intercalate "\n" parts

/-- `WorkflowState.reset_for_new_input` from src/core/state.py. -/
def WorkflowState.reset_for_new_input (s : WorkflowState) (user_input : String) :
    WorkflowState :=
  { s with
    current_user_input := user_input
    current_agent := AgentType.SUPERVISOR
    detected_intent := none
    intent_confidence := 0
    should_continue := true
    final_response := none
    task_context := []
    intermediate_results := [] }

/-- `GracefulDegradation.determine_degradation_level` from
src/utils/error_handler.py. -/
def GracefulDegradation.determine_degradation_level (state : WorkflowState) :
    String :=
  let error_count := state.error_count
  if error_count = 0 then "full"
  else if error_count ≤ 2 then "limited"
  else if error_count ≤ 5 then "basic"
  else "minimal"

/-- The fixed text of `GracefulDegradation._get_minimal_response`. -/
def GracefulDegradation.minimal_response : String :=
  "I apologize, but I" ++ apos ++ "m currently experiencing technical difficulties " ++
  "that prevent me from providing a complete response. Please try:\n" ++
  "1. Simplifying your request\n" ++
  "2. Trying again in a few minutes\n" ++
  "3. Contacting support if the issue persists\n\n" ++
  "Thank you for your patience."

/-- `GracefulDegradation.apply_degradation` from src/utils/error_handler.py
(with `target_level=None`, the only way it is called in the repository). -/
def GracefulDegradation.apply_degradation (state : WorkflowState) : WorkflowState :=
  let target_level := GracefulDegradation.determine_degradation_level state
  if target_level = "limited" then
    { state with fallback_mode := true }
  else if target_level = "basic" then
    { state with current_agent := AgentType.SUPERVISOR, fallback_mode := true }
  else if target_level = "minimal" then
    { state with should_continue := false,
                 final_response := some GracefulDegradation.minimal_response }
  else state

/-- Intent categories, from `IntentCategory` in src/core/intent_classifier.py
(a `str` enum; `value` gives the payload). -/
inductive IntentCategory where
  | RESEARCH
  | CODING
  | WRITING
  | DATA_ANALYSIS
  | GENERAL
  deriving DecidableEq, Repr

/-- The string payload of an intent category. -/
def IntentCategory.value : IntentCategory → String
  | .RESEARCH => "research"
  | .CODING => "coding"
  | .WRITING => "writing"
  | .DATA_ANALYSIS => "data_analysis"
  | .GENERAL => "general"

/-- Python `IntentCategory(s)`: enum construction by value, `none` modelling
the `ValueError` raised for a string outside the closed set. -/
def IntentCategory.ofString? (s : String) : Option IntentCategory :=
  if s = "research" then some .RESEARCH
  else if s = "coding" then some .CODING
  else if s = "writing" then some .WRITING
  else if s = "data_analysis" then some .DATA_ANALYSIS
  else if s = "general" then some .GENERAL
  else none

/-- `IntentClassifier.INTENT_AGENT_MAP` from src/core/intent_classifier.py. -/
def INTENT_AGENT_MAP : IntentCategory → AgentType
  | .RESEARCH => AgentType.RESEARCH
  | .CODING => AgentType.CODE
  | .WRITING => AgentType.WRITING
  | .DATA_ANALYSIS => AgentType.DATA
  | .GENERAL => AgentType.SUPERVISOR

/-- Abstraction of the raw backend text handed to
`IntentClassifier._parse_classification_response`:
`parsed intent confidence reasoning` stands for a text whose first
brace-delimited block json-decodes to an object with the three required keys
and a confidence convertible to float; `malformed e` stands for every other
text (no block, json decode error, missing key or non-numeric confidence),
with `e` the stringified Python exception. -/
inductive RawResponse where
  | malformed : String → RawResponse
  | parsed : String → ℚ → String → RawResponse

/-- Result record for the classifier (the source returns the same data as a
dict and then a 4-tuple). -/
structure Classification where
  intent : String
  confidence : ℚ
  reasoning : String
  agent : AgentType
  deriving DecidableEq, Repr

/-- Python `max(a, b)` on two numbers.  Defined by an explicit comparison so
that the kernel can evaluate it on concrete rationals (the library `max` on
`ℚ` is irreducible); for equal arguments both notions agree. -/
def pyMax (a b : ℚ) : ℚ := if a ≤ b then b else a

/-- Python `min(a, b)` on two numbers, kernel-computable like `pyMax`. -/
def pyMin (a b : ℚ) : ℚ := if b ≤ a then b else a

/-- The clamp `max(0.0, min(1.0, c))` used in
`IntentClassifier._parse_classification_response`. -/
def clamp01 (c : ℚ) : ℚ := pyMax 0 (pyMin 1 c)

/-- The attenuation `confidence * 0.5` of classify_intent, written as a
kernel-computable quotient (library multiplication on `ℚ` is irreducible);
the lemma `halve_eq` below proves it equal to multiplication by 1/2. -/
def halve (c : ℚ) : ℚ := mkRat c.num (c.den * 2)

/-- `IntentClassifier._parse_classification_response` from
src/core/intent_classifier.py: a well-formed block is clamped and returned;
anything else falls back to the catch-all with confidence 0.2. -/
def parse_classification_response : RawResponse → String × ℚ × String
  | .parsed intent confidence reasoning =>
      (intent, clamp01 confidence, reasoning)
  | .malformed e =>
      (IntentCategory.GENERAL.value, mkRat 2 10,
       "Failed to parse classification response: " ++ e)

/-- `IntentClassifier.classify_intent` from src/core/intent_classifier.py.
The argument models the outcome of the body of its try block up to parsing:
`Except.error e` stands for any exception raised inside the try block (a
backend failure, a non-string field crashing `.lower()`, ...), which the
source's except clause converts to the catch-all result with confidence 0.1;
`Except.ok raw` stands for a backend text abstracted as in `RawResponse`. -/
def classify_intent (call : Except String RawResponse) : Classification :=
  match call with
  | .error e =>
      ⟨IntentCategory.GENERAL.value, mkRat 1 10,
       "Classification failed: " ++ e ++ ". Using fallback.",
       AgentType.SUPERVISOR⟩
  | .ok raw =>
      let r := parse_classification_response raw
      let intent := r.1
      let confidence := r.2.1
      let reasoning := r.2.2
      match IntentCategory.ofString? (pyLower intent) with
      | some intent_category =>
          ⟨intent, confidence, reasoning, INTENT_AGENT_MAP intent_category⟩
      | none =>
          ⟨intent, pyMax (mkRat 1 10) (halve confidence),
           reasoning ++ " (Unknown intent, routing to supervisor)",
           AgentType.SUPERVISOR⟩

/-- The oracle for one turn: everything the core receives from outside.
`classifierCall` is the outcome of the classifier's try block (see
`classify_intent`); `llm k` is the outcome of the `k`-th call (0-based, in
execution order) to `llm_client.generate_response` made by an agent, with
`Except.error` a raised backend exception; `specialistFailure a` injects an
exception at the start of the try block of specialist `a`'s
`process_request` (Python code can raise anywhere, and that try/except is
the boundary that catches it); `invokeFailure` injects an exception from the
langgraph machinery of `graph.invoke` itself, caught by the try block of
`process_user_input`. -/
structure Env where
  classifierCall : Except String RawResponse
  llm : Nat → Except String String
  specialistFailure : AgentType → Option String
  invokeFailure : Option String

/-- `BaseAgent.generate_response` from src/agents/base_agent.py: a raised
backend exception is caught and turned into an apology string, so this
function never raises.  Returns the text plus the next call index. -/
def generate_response (env : Env) (k : Nat) : String × Nat :=
  match env.llm k with
  | .ok t => (t, k + 1)
  | .error e =>
      ("I apologize, but I encountered an error while processing your request: "
        ++ e, k + 1)

/-- `BaseAgent.update_state_with_response` from src/agents/base_agent.py. -/
def update_state_with_response (agent_type : AgentType) (state : WorkflowState)
    (response : String) : WorkflowState :=
  let state := state.add_message MessageRole.ASSISTANT response (some agent_type)
  let state := { state with final_response := some response }
  { state with intermediate_results :=
      dictInsert state.intermediate_results (agent_type.value ++ "_response") response }

/-- `BaseAgent.handle_error` from src/agents/base_agent.py, parameterised by
the agent's identity, display name and the text its (overridden)
`get_fallback_response` produces: records the error and appends the fallback
as an assistant message.  Note that it does not touch `final_response`. -/
def handle_error (agent_type : AgentType) (name : String) (fallback : String)
    (state : WorkflowState) (error : String) : WorkflowState :=
  let state := state.record_error ("Error in " ++ name ++ ": " ++ error)
  state.add_message MessageRole.ASSISTANT fallback (some agent_type)

/-- Python `str.strip()` restricted to whitespace, character by character. -/
def pyStrip (s : String) : String :=
  String.mk (((s.data.dropWhile Char.isWhitespace).reverse.dropWhile
    Char.isWhitespace).reverse)

/-- Split a character list on a separator, the model of Python
`str.split(sep)` for one-character separators. -/
def splitCharList (sep : Char) : List Char → List (List Char)
  | [] => [[]]
  | c :: cs =>
      let rest := splitCharList sep cs
      if c == sep then [] :: rest
      else
        match rest with
        | [] => [[c]]
        | r :: rs => (c :: r) :: rs

/-- Python `response.split('\n')`. -/
def pySplitLines (s : String) : List String :=
  (splitCharList '\n' s.data).map String.mk

/-- Python `s.replace('_', ' ')` as used in the postprocessing notes. -/
def pyReplaceUnderscore (s : String) : String :=
  String.mk (s.data.map (fun c => if c == '_' then ' ' else c))

/-- Python `str.title()` for the space-separated words the source feeds it:
first character of each word upper-cased, the rest lower-cased. -/
def pyTitle (s : String) : String :=
  String.intercalate " " ((splitCharList ' ' s.data).map (fun w =>
    match w with
    | [] => String.mk []
    | c :: cs => String.mk (Char.toUpper c :: cs.map Char.toLower)))

/-- Read a string-valued entry of a task-scratch dict with a default, the
model of `state.task_context.get(k, dflt)` at the call sites where the key
is only ever bound to a string. -/
def taskStr (d : List (String × TaskValue)) (k dflt : String) : String :=
  match dictGet d k (TaskValue.str dflt) with
  | TaskValue.str s => s
  | _ => dflt

/-- `CodeAgent._analyze_coding_task` from src/agents/code_agent.py. -/
def CodeAgent.analyze_coding_task (user_input : String) : String :=
  let input_lower := pyLower user_input
  if ["debug", "error", "fix", "bug", "issue", "problem"].any
      (strContains input_lower) then "debugging"
  else if ["review", "improve", "optimize", "refactor"].any
      (strContains input_lower) then "code_review"
  else if ["test", "unit test", "testing", "pytest", "jest"].any
      (strContains input_lower) then "testing"
  else if ["api", "endpoint", "rest", "graphql", "service"].any
      (strContains input_lower) then "api_development"
  else if ["database", "sql", "query", "schema"].any
      (strContains input_lower) then "database"
  else if ["algorithm", "data structure", "complexity"].any
      (strContains input_lower) then "algorithms"
  else if ["web", "frontend", "ui", "html", "css"].any
      (strContains input_lower) then "web_development"
  else if ["deploy", "docker", "kubernetes", "ci/cd"].any
      (strContains input_lower) then "devops"
  else "general_coding"

/-- `CodeAgent._extract_programming_language` from src/agents/code_agent.py
(the dict iterates in insertion order; the first matching entry wins). -/
def CodeAgent.extract_programming_language (user_input : String) : String :=
  let input_lower := pyLower user_input
  if ["python", "py", "django", "flask", "pandas", "numpy"].any
      (strContains input_lower) then "python"
  else if ["javascript", "js", "node", "react", "vue", "angular"].any
      (strContains input_lower) then "javascript"
  else if ["typescript", "ts"].any (strContains input_lower) then "typescript"
  else if ["java", "spring", "maven", "gradle"].any
      (strContains input_lower) then "java"
  else if ["c++", "cpp", "cxx"].any (strContains input_lower) then "cpp"
  else if ["c#", "csharp", ".net", "dotnet"].any
      (strContains input_lower) then "csharp"
  else if ["go", "golang"].any (strContains input_lower) then "go"
  else if ["rust", "cargo"].any (strContains input_lower) then "rust"
  else if ["sql", "postgresql", "mysql", "sqlite"].any
      (strContains input_lower) then "sql"
  else if ["html", "markup"].any (strContains input_lower) then "html"
  else if ["css", "scss", "sass"].any (strContains input_lower) then "css"
  else "general"

/-- Loop body of `CodeAgent._extract_code_blocks`: walks the lines, toggling
on fenced delimiters, flushing a block when a fence closes. -/
def CodeAgent.extract_code_blocks_impl :
    List String → Bool → List String → List String
  | [], _, _ => []
  | line :: rest, in_code_block, current_block =>
      if listStartsWith "```".data (pyStrip line).data then
        if in_code_block then
          String.intercalate "\n" current_block.reverse ::
            CodeAgent.extract_code_blocks_impl rest false []
        else
          CodeAgent.extract_code_blocks_impl rest true []
      else if in_code_block then
        CodeAgent.extract_code_blocks_impl rest in_code_block
          (line :: current_block)
      else
        CodeAgent.extract_code_blocks_impl rest in_code_block current_block

/-- `CodeAgent._extract_code_blocks` from src/agents/code_agent.py. -/
def CodeAgent.extract_code_blocks (response : String) : List String :=
  CodeAgent.extract_code_blocks_impl (pySplitLines response) false []

/-- `CodeAgent.postprocess_response` from src/agents/code_agent.py: appends
an execution note when the response contains a code fence, and a task
context note read from the (pre-update) task scratch. -/
def CodeAgent.postprocess_response (state : WorkflowState) (response : String) :
    String :=
  let response :=
    if strContains response "```" then
      response ++ "\n\n💻 **Execution Note**: Please test the code in your development environment and adjust as needed for your specific use case."
    else response
  let task_type := taskStr state.task_context "coding_task_type" "general_coding"
  let language := taskStr state.task_context "programming_language" "general"
  if task_type ≠ "general_coding" ∨ language ≠ "general" then
    let context_note := "\n\n🔧 **Task Context**: " ++
      pyTitle (pyReplaceUnderscore task_type)
    let context_note :=
      if language ≠ "general" then context_note ++ " in " ++ pyTitle language
      else context_note
    response ++ context_note
  else response

/-- `ResearchAgent._analyze_research_type` from src/agents/research_agent.py. -/
def ResearchAgent.analyze_research_type (user_input : String) : String :=
  let input_lower := pyLower user_input
  if ["fact check", "verify", "true", "false", "accurate"].any
      (strContains input_lower) then "fact_checking"
  else if ["market", "industry", "competition", "trends"].any
      (strContains input_lower) then "market_research"
  else if ["academic", "study", "research paper", "journal"].any
      (strContains input_lower) then "academic_research"
  else if ["how to", "guide", "tutorial", "steps"].any
      (strContains input_lower) then "instructional_research"
  else if ["history", "background", "origin", "development"].any
      (strContains input_lower) then "historical_research"
  else if ["compare", "vs", "versus", "difference"].any
      (strContains input_lower) then "comparative_research"
  else "general_research"

/-- `ResearchAgent._extract_sources` from src/agents/research_agent.py. -/
def ResearchAgent.extract_sources (response : String) : List String :=
  (pySplitLines response).filterMap (fun line =>
    let line_lower := pyLower line
    if ["source:", "reference:", "study:", "according to"].any
        (strContains line_lower) then some (pyStrip line)
    else none)

/-- `ResearchAgent.postprocess_response` from src/agents/research_agent.py. -/
def ResearchAgent.postprocess_response (state : WorkflowState)
    (response : String) : String :=
  let response :=
    if !(strContains (pyLower response) "training data") &&
       !(strContains (pyLower response) "real-time") then
      response ++ "\n\n📝 **Research Note**: This analysis is based on my training data. For the most current information, I recommend consulting recent sources or specialized databases."
    else response
  let research_type := taskStr state.task_context "research_type" "general_research"
  if research_type ≠ "general_research" then
    response ++ "\n\n🔍 **Research Type**: " ++
      pyTitle (pyReplaceUnderscore research_type)
  else response

/-- `WritingAgent._analyze_writing_task` from src/agents/writing_agent.py. -/
def WritingAgent.analyze_writing_task (user_input : String) : String :=
  let input_lower := pyLower user_input
  if ["blog", "article", "post"].any (strContains input_lower) then
    "blog_article"
  else if ["email", "message", "letter"].any (strContains input_lower) then
    "email_communication"
  else if ["documentation", "manual", "guide", "tutorial"].any
      (strContains input_lower) then "technical_documentation"
  else if ["marketing", "advertisement", "copy", "promotional"].any
      (strContains input_lower) then "marketing_copy"
  else if ["story", "creative", "fiction", "narrative"].any
      (strContains input_lower) then "creative"
  else if ["business", "proposal", "report", "formal"].any
      (strContains input_lower) then "business_writing"
  else if ["edit", "proofread", "improve", "revise"].any
      (strContains input_lower) then "editing"
  else if ["social media", "tweet", "post", "caption"].any
      (strContains input_lower) then "social_media"
  else "general_writing"

/-- `WritingAgent._identify_target_audience` from src/agents/writing_agent.py. -/
def WritingAgent.identify_target_audience (user_input : String) : String :=
  let input_lower := pyLower user_input
  if ["technical", "developer", "engineer"].any (strContains input_lower) then
    "technical_professional"
  else if ["business", "executive", "corporate"].any
      (strContains input_lower) then "business_professional"
  else if ["academic", "research", "scholarly"].any
      (strContains input_lower) then "academic"
  else if ["customer", "client", "user"].any (strContains input_lower) then
    "end_user"
  else if ["general", "public", "everyone"].any (strContains input_lower) then
    "general_public"
  else "general"

/-- `WritingAgent.postprocess_response` from src/agents/writing_agent.py. -/
def WritingAgent.postprocess_response (state : WorkflowState)
    (response : String) : String :=
  let writing_type := taskStr state.task_context "writing_type" "general_writing"
  let target_audience := taskStr state.task_context "target_audience" "general"
  let response :=
    if writing_type ≠ "general_writing" ∨ target_audience ≠ "general" then
      let context_note := "\n\n✍️ **Writing Context**: " ++
        pyTitle (pyReplaceUnderscore writing_type)
      let context_note :=
        if target_audience ≠ "general" then
          context_note ++ " for " ++ pyTitle (pyReplaceUnderscore target_audience)
        else context_note
      response ++ context_note
    else response
  if ["blog_article", "marketing_copy", "business_writing"].contains
      writing_type then
    response ++ "\n\n📝 **Note**: Please review and customize this content for your specific needs, brand voice, and requirements."
  else response

/-- `DataAgent._analyze_data_task` from src/agents/data_agent.py. -/
def DataAgent.analyze_data_task (user_input : String) : String :=
  let input_lower := pyLower user_input
  if ["visualize", "chart", "plot", "graph", "dashboard"].any
      (strContains input_lower) then "visualization"
  else if ["statistics", "statistical", "significance", "test"].any
      (strContains input_lower) then "statistical_analysis"
  else if ["correlation", "relationship", "association"].any
      (strContains input_lower) then "correlation_analysis"
  else if ["trend", "time series", "forecast", "predict"].any
      (strContains input_lower) then "time_series"
  else if ["segment", "cluster", "group", "classify"].any
      (strContains input_lower) then "clustering_classification"
  else if ["sql", "query", "database", "table"].any
      (strContains input_lower) then "database_query"
  else if ["clean", "preprocess", "transform", "prepare"].any
      (strContains input_lower) then "data_preprocessing"
  else if ["summary", "describe", "overview", "profile"].any
      (strContains input_lower) then "descriptive_analysis"
  else if ["outlier", "anomaly", "unusual", "detect"].any
      (strContains input_lower) then "anomaly_detection"
  else "general_analysis"

/-- `DataAgent._extract_data_context` from src/agents/data_agent.py. -/
def DataAgent.extract_data_context (user_input : String) :
    List (String × TaskValue) :=
  let input_lower := pyLower user_input
  let data_size :=
    if ["large", "big data", "millions", "thousands"].any
        (strContains input_lower) then "large"
    else if ["small", "few", "limited"].any (strContains input_lower) then
      "small"
    else "unknown"
  let data_type :=
    if ["sales", "revenue", "financial"].any (strContains input_lower) then
      "financial"
    else if ["customer", "user", "behavior"].any (strContains input_lower) then
      "behavioral"
    else if ["web", "clicks", "views", "traffic"].any
        (strContains input_lower) then "web_analytics"
    else if ["survey", "feedback", "rating"].any (strContains input_lower) then
      "survey"
    else "unknown"
  let tools_mentioned :=
    ["python", "r", "sql", "excel", "tableau", "powerbi"].filter
      (strContains input_lower)
  [("data_size", TaskValue.str data_size),
   ("data_type", TaskValue.str data_type),
   ("tools_mentioned", TaskValue.strs tools_mentioned),
   ("constraints", TaskValue.strs [])]

/-- `DataAgent.postprocess_response` from src/agents/data_agent.py. -/
def DataAgent.postprocess_response (state : WorkflowState) (response : String) :
    String :=
  let analysis_type := taskStr state.task_context "analysis_type" "general_analysis"
  let data_context :=
    match dictGet state.task_context "data_context" (TaskValue.table []) with
    | TaskValue.table t => t
    | _ => []
  let response :=
    if analysis_type ≠ "general_analysis" then
      response ++ "\n\n📊 **Analysis Type**: " ++
        pyTitle (pyReplaceUnderscore analysis_type)
    else response
  let response :=
    if ["statistical_analysis", "time_series", "clustering_classification"].contains
        analysis_type then
      response ++ "\n\n⚠️ **Important**: Please validate assumptions and data quality before implementing these recommendations."
    else response
  let tools_mentioned :=
    match dictGet data_context "tools_mentioned" (TaskValue.strs []) with
    | TaskValue.strs l => l
    | _ => []
  if tools_mentioned.isEmpty then
    response ++ "\n\n🛠️ **Suggested Tools**: Consider using Python (pandas, matplotlib), R (ggplot2), or Excel depending on your technical requirements."
  else response

/-- A specialist handler: the data distinguishing the four concrete
subclasses of `BaseAgent` (src/agents/{code,research,writing,data}_agent.py),
which share one `process_request` template. -/
structure SpecialistAgent where
  agent_type : AgentType
  name : String
  keywords : List String
  contextWrites : String → String → List (String × TaskValue)
  postprocess : WorkflowState → String → String
  fallbackText : String

/-- `can_handle_request` of the specialist subclasses: a keyword scan over
the lower-cased raw input (the `intent` argument is ignored by all four
overrides). -/
def SpecialistAgent.can_handle_request (a : SpecialistAgent)
    (user_input : String) (_intent : Option String) : Bool :=
  a.keywords.any (strContains (pyLower user_input))

/-- The shared body of `process_request` of the four specialist agents: on
the success path it generates a response, post-processes it, writes the
handler-specific scratch entries and ends in `update_state_with_response`;
an exception raised inside the try block (injected via
`Env.specialistFailure`) is caught and routed to `handle_error`.  The third
component is the trace of `process_request` invocations, for stating
execution-count properties. -/
def SpecialistAgent.process_request (a : SpecialistAgent) (env : Env) (k : Nat)
    (state : WorkflowState) : WorkflowState × Nat × List AgentType :=
  match env.specialistFailure a.agent_type with
  | some e =>
      (handle_error a.agent_type a.name a.fallbackText state e, k, [a.agent_type])
  | none =>
      let r := generate_response env k
      let formatted_response := a.postprocess state r.1
      let writes := a.contextWrites state.current_user_input r.1
      let state := { state with
        task_context := writes.foldl (fun d kv => dictInsert d kv.1 kv.2)
          state.task_context }
      (update_state_with_response a.agent_type state formatted_response, r.2,
       [a.agent_type])

/-- The Code Agent (src/agents/code_agent.py). -/
def code_agent : SpecialistAgent where
  agent_type := AgentType.CODE
  name := "Code Agent"
  keywords := ["code", "program", "function", "class", "method", "variable",
    "algorithm", "debug", "error", "bug", "test", "api", "database",
    "javascript", "python", "java", "c++", "sql", "html", "css"]
  contextWrites := fun user_input response =>
    [("coding_task_type", TaskValue.str (CodeAgent.analyze_coding_task user_input)),
     ("programming_language",
       TaskValue.str (CodeAgent.extract_programming_language user_input)),
     ("code_blocks", TaskValue.strs (CodeAgent.extract_code_blocks response))]
  postprocess := CodeAgent.postprocess_response
  fallbackText :=
    "I apologize, but I encountered an issue while processing your coding request. " ++
    "This might be due to the complexity of the problem or technical limitations. " ++
    "Could you try:\n" ++
    "1. Breaking down your request into smaller, specific tasks\n" ++
    "2. Providing more context about your programming environment\n" ++
    "3. Including relevant code snippets or error messages\n" ++
    "4. Specifying the programming language and framework\n\n" ++
    "I" ++ apos ++ "m here to help with your development needs once we resolve this issue."

/-- The Research Agent (src/agents/research_agent.py). -/
def research_agent : SpecialistAgent where
  agent_type := AgentType.RESEARCH
  name := "Research Agent"
  keywords := ["research", "find", "search", "information", "facts", "data",
    "study", "analysis", "investigate", "explore", "discover",
    "verify", "check", "confirm", "what is", "how many", "when did"]
  contextWrites := fun user_input response =>
    [("research_type", TaskValue.str (ResearchAgent.analyze_research_type user_input)),
     ("sources_consulted", TaskValue.strs (ResearchAgent.extract_sources response))]
  postprocess := ResearchAgent.postprocess_response
  fallbackText :=
    "I apologize, but I encountered an issue while researching your request. " ++
    "This might be due to the complexity of the query or technical limitations. " ++
    "Could you try:\n" ++
    "1. Breaking your question into smaller, more specific parts\n" ++
    "2. Providing more context about what type of information you need\n" ++
    "3. Rephrasing your research question\n\n" ++
    "I" ++ apos ++ "m here to help with your research needs once we resolve this issue."

/-- The Writing Agent (src/agents/writing_agent.py). -/
def writing_agent : SpecialistAgent where
  agent_type := AgentType.WRITING
  name := "Writing Agent"
  keywords := ["write", "create", "draft", "compose", "edit", "proofread",
    "blog", "article", "email", "letter", "documentation", "guide",
    "story", "content", "copy", "marketing", "social media"]
  contextWrites := fun user_input _response =>
    [("writing_type", TaskValue.str (WritingAgent.analyze_writing_task user_input)),
     ("target_audience",
       TaskValue.str (WritingAgent.identify_target_audience user_input))]
  postprocess := WritingAgent.postprocess_response
  fallbackText :=
    "I apologize, but I encountered an issue while working on your writing request. " ++
    "This might be due to the complexity of the task or technical limitations. " ++
    "Could you try:\n" ++
    "1. Providing more specific details about the content you need\n" ++
    "2. Clarifying the target audience and purpose\n" ++
    "3. Breaking down complex requests into smaller tasks\n" ++
    "4. Specifying the desired tone, style, or format\n\n" ++
    "I" ++ apos ++ "m here to help with your writing needs once we resolve this issue."

/-- The Data Agent (src/agents/data_agent.py). -/
def data_agent : SpecialistAgent where
  agent_type := AgentType.DATA
  name := "Data Agent"
  keywords := ["data", "analysis", "statistics", "chart", "graph", "plot",
    "visualize", "database", "sql", "trend", "correlation",
    "forecast", "predict", "cluster", "segment", "excel"]
  contextWrites := fun user_input _response =>
    [("analysis_type", TaskValue.str (DataAgent.analyze_data_task user_input)),
     ("data_context", TaskValue.table (DataAgent.extract_data_context user_input))]
  postprocess := DataAgent.postprocess_response
  fallbackText :=
    "I apologize, but I encountered an issue while processing your data analysis request. " ++
    "This might be due to the complexity of the analysis or technical limitations. " ++
    "Could you try:\n" ++
    "1. Providing more details about your dataset structure\n" ++
    "2. Clarifying the specific analysis or insights you need\n" ++
    "3. Specifying your preferred tools or constraints\n" ++
    "4. Breaking down complex analyses into smaller steps\n\n" ++
    "I" ++ apos ++ "m here to help with your data analysis needs once we resolve this issue."

/-- The handler registry built by `MultiAgentGraphBuilder.__init__`, which
registers the four specialists with the supervisor. -/
def registered_agents : List AgentType :=
  [AgentType.RESEARCH, AgentType.CODE, AgentType.WRITING, AgentType.DATA]

/-- `self.available_agents[target]` of the supervisor, as populated by the
graph builder. -/
def specialistOf? : AgentType → Option SpecialistAgent
  | AgentType.RESEARCH => some research_agent
  | AgentType.CODE => some code_agent
  | AgentType.WRITING => some writing_agent
  | AgentType.DATA => some data_agent
  | AgentType.SUPERVISOR => none

/-- The text `SupervisorAgent.get_fallback_response` returns. -/
def SupervisorAgent.fallbackText : String :=
  "I apologize, but I" ++ apos ++ "m experiencing some technical difficulties. " ++
  "I" ++ apos ++ "m working to resolve this issue. In the meantime, could you please " ++
  "rephrase your request or try asking something else?"

/-- `SupervisorAgent._should_route_to_specialist` from src/agents/supervisor.py:
never route to self or to an unregistered handler; route on confidence at
least 0.7, or in fallback mode on confidence at least 0.5. -/
def SupervisorAgent.should_route_to_specialist (available_agents : List AgentType)
    (state : WorkflowState) (target_agent : AgentType) (confidence : ℚ) : Bool :=
  if target_agent = AgentType.SUPERVISOR then false
  else if target_agent ∉ available_agents then false
  else if mkRat 7 10 ≤ confidence then true
  else if state.fallback_mode = true ∧ mkRat 5 10 ≤ confidence then true
  else false

/-- `SupervisorAgent._handle_directly` from src/agents/supervisor.py: build
the conversation prompt (absorbed into the oracle, see `Env`), generate a
response and record it.  Nothing inside the model of its try block can
raise, so the except clause is unreachable here. -/
def SupervisorAgent.handle_directly (env : Env) (k : Nat)
    (state : WorkflowState) : WorkflowState × Nat :=
  let r := generate_response env k
  (update_state_with_response AgentType.SUPERVISOR state r.1, r.2)

/-- `SupervisorAgent._route_to_specialist` from src/agents/supervisor.py:
look the specialist up (a KeyError is caught by the except clause, which
records the error and falls back to direct handling), ask it whether it
accepts, and on accept append the routing message and hand over. -/
def SupervisorAgent.route_to_specialist (env : Env) (k : Nat)
    (state : WorkflowState) (target_agent : AgentType) :
    WorkflowState × Nat × List AgentType :=
  match specialistOf? target_agent with
  | none =>
      let state := state.record_error
        ("Failed to route to " ++ target_agent.value ++ ": KeyError")
      let r := SupervisorAgent.handle_directly env k state
      (r.1, r.2, [])
  | some specialist =>
      if !(specialist.can_handle_request state.current_user_input
            state.detected_intent) then
        let r := SupervisorAgent.handle_directly env k state
        (r.1, r.2, [])
      else
        let routing_message := "I" ++ apos ++ "ll help you with that " ++
          (match state.detected_intent with
           | some i => i
           | none => "None") ++
          " request. Let me route this to our " ++ specialist.name ++ "."
        let state := state.add_message MessageRole.ASSISTANT routing_message
          (some AgentType.SUPERVISOR)
        specialist.process_request env k state

/-- The first half of `SupervisorAgent.process_request` from
src/agents/supervisor.py: classify the intent, store the result on the
state, and record the handoff (named separately so that the routing
decision can be stated over this intermediate state; the trace component of
`process_request` lists the specialist `process_request` invocations made
inside the call). -/
def SupervisorAgent.classify_and_record (env : Env) (state : WorkflowState) :
    WorkflowState :=
  let c := classify_intent env.classifierCall
  WorkflowState.add_handoff
    { state with
      detected_intent := some c.intent
      intent_confidence := c.confidence }
    AgentType.SUPERVISOR c.agent c.intent c.confidence c.reasoning

/-- `SupervisorAgent.process_request` continued: after the classification
bookkeeping above, either dispatch to a specialist or handle directly. -/
def SupervisorAgent.process_request (env : Env) (k : Nat)
    (state : WorkflowState) : WorkflowState × Nat × List AgentType :=
  let c := classify_intent env.classifierCall
  let state := SupervisorAgent.classify_and_record env state
  if SupervisorAgent.should_route_to_specialist registered_agents state c.agent
      c.confidence then
    let state := { state with current_agent := c.agent }
    SupervisorAgent.route_to_specialist env k state c.agent
  else
    let r := SupervisorAgent.handle_directly env k state
    (r.1, r.2, [])

/-- `MultiAgentGraphBuilder._route_from_supervisor` from
src/core/graph_builder.py (the strings are the node identifiers of the
conditional-edge map built in `build_graph`). -/
def route_from_supervisor (state : WorkflowState) : String :=
  if state.current_agent = AgentType.SUPERVISOR ∧
      pyTruthyStr state.final_response = true then "END"
  else if state.current_agent = AgentType.RESEARCH then AgentType.RESEARCH.value
  else if state.current_agent = AgentType.CODE then AgentType.CODE.value
  else if state.current_agent = AgentType.WRITING then AgentType.WRITING.value
  else if state.current_agent = AgentType.DATA then AgentType.DATA.value
  else AgentType.SUPERVISOR.value

/-- `MultiAgentGraphBuilder._supervisor_node`: runs the supervisor and marks
one Router step on the trace (the except clause is unreachable because the
supervisor's own process is total in the model). -/
def supervisor_node (env : Env) (k : Nat) (state : WorkflowState) :
    WorkflowState × Nat × List AgentType :=
  let r := SupervisorAgent.process_request env k state
  (r.1, r.2.1, AgentType.SUPERVISOR :: r.2.2)

/-- The specialist nodes `_research_node`/`_code_node`/`_writing_node`/
`_data_node` of src/core/graph_builder.py: each runs its agent's
`process_request` (their except clauses are likewise unreachable because
the specialist template catches its own failures). -/
def specialist_node (env : Env) (a : SpecialistAgent) (k : Nat)
    (state : WorkflowState) : WorkflowState × Nat × List AgentType :=
  a.process_request env k state

/-- One run of the compiled graph (`build_graph` in
src/core/graph_builder.py): the supervisor entry node, then the conditional
edge computed by `route_from_supervisor` — the keys "supervisor" and "END"
both map to END, the four specialist keys map to the corresponding node,
and every specialist node has a single edge to END. -/
def graph_invoke (env : Env) (state : WorkflowState) :
    WorkflowState × List AgentType :=
  let r1 := supervisor_node env 0 state
  let s1 := r1.1
  let route := route_from_supervisor s1
  if route = "research" then
    let r2 := specialist_node env research_agent r1.2.1 s1
    (r2.1, r1.2.2 ++ r2.2.2)
  else if route = "code" then
    let r2 := specialist_node env code_agent r1.2.1 s1
    (r2.1, r1.2.2 ++ r2.2.2)
  else if route = "writing" then
    let r2 := specialist_node env writing_agent r1.2.1 s1
    (r2.1, r1.2.2 ++ r2.2.2)
  else if route = "data" then
    let r2 := specialist_node env data_agent r1.2.1 s1
    (r2.1, r1.2.2 ++ r2.2.2)
  else (s1, r1.2.2)

/-- The apology `process_user_input` substitutes when the workflow produced
no final response. -/
def no_response_apology : String :=
  "I apologize, but I wasn" ++ apos ++
  "t able to generate a proper response. Please try rephrasing your request."

/-- The apology `process_user_input` substitutes when `graph.invoke` itself
raised. -/
def workflow_error_apology : String :=
  "I apologize, but I encountered a technical issue while processing your request. " ++
  "Please try again or rephrase your question."

/-- `MultiAgentGraphBuilder.process_user_input` from src/core/graph_builder.py,
instrumented with the trace of handler `process_request` invocations: build
a fresh state, run the graph (an exception from the langgraph machinery,
injected via `Env.invokeFailure`, is caught, recorded and answered with the
generic apology), and substitute a fallback plus an error record when the
resulting `final_response` is missing or empty. -/
def MultiAgentGraphBuilder.process_user_input_run (env : Env)
    (user_input : String) : WorkflowState × List AgentType :=
  let initial_state := WorkflowState.reset_for_new_input {} user_input
  match env.invokeFailure with
  | some e =>
      let s := initial_state.record_error ("Workflow execution error: " ++ e)
      ({ s with final_response := some workflow_error_apology }, [])
  | none =>
      let r := graph_invoke env initial_state
      if pyTruthyStr r.1.final_response = true then r
      else
        let s := { r.1 with final_response := some no_response_apology }
        (s.record_error "No final response generated", r.2)

/-- The state returned to the caller of
`MultiAgentGraphBuilder.process_user_input`. -/
def MultiAgentGraphBuilder.process_user_input (env : Env)
    (user_input : String) : WorkflowState :=
  (MultiAgentGraphBuilder.process_user_input_run env user_input).1

/-- Number of messages in a history tagged as produced by handler `a`. -/
def countTag (a : AgentType) (ms : List Message) : Nat :=
  ms.countP (fun m => decide (m.agent_type = some a))

/-- A turn oracle: the backend classifies the input as a coding task with
confidence 0.85 and answers generation calls normally. -/
def envDispatch : Env where
  classifierCall :=
    Except.ok (RawResponse.parsed "coding" (mkRat 85 100) "looks like a coding task")
  llm := fun _ => Except.ok "here is code"
  specialistFailure := fun _ => none
  invokeFailure := none

/-- A turn oracle: the backend classifies the input as a coding task with
borderline confidence 0.4 and answers generation calls normally. -/
def envBorderline : Env where
  classifierCall :=
    Except.ok (RawResponse.parsed "coding" (mkRat 4 10) "maybe a coding task")
  llm := fun _ => Except.ok "sure, happy to chat"
  specialistFailure := fun _ => none
  invokeFailure := none

/-- A turn oracle: classification succeeds as general conversation but every
generation call to the language-model backend raises. -/
def envBackendDown : Env where
  classifierCall := Except.ok (RawResponse.parsed "general" (mkRat 9 10) "greeting")
  llm := fun _ => Except.error "connection refused"
  specialistFailure := fun _ => none
  invokeFailure := none

/-- A turn oracle: a confident coding classification, with an exception
injected inside the Code Agent's process body. -/
def envCodeFailure : Env where
  classifierCall :=
    Except.ok (RawResponse.parsed "coding" (mkRat 85 100) "looks like a coding task")
  llm := fun _ => Except.ok "unused"
  specialistFailure := fun a =>
    if a = AgentType.CODE then some "simulated failure" else none
  invokeFailure := none

/-- `add_handoff` iterated n times on a fresh state, to exercise the ledger
far beyond any plausible bound. -/
def iterated_handoffs : Nat → WorkflowState
  | 0 => {}
  | n + 1 =>
      (iterated_handoffs n).add_handoff AgentType.SUPERVISOR AgentType.CODE
        "coding" (mkRat 1 2) "loop"

/-- The kernel-computable halving agrees with multiplication by one half
(`confidence * 0.5` in the source). -/
theorem halve_eq (c : ℚ) : halve c = c * (1/2) := by
  rw [halve, Rat.mkRat_eq_divInt, Rat.divInt_eq_div]
  push_cast
  conv_rhs => rw [← Rat.num_div_den c]
  have hd : (c.den : ℚ) ≠ 0 := by exact_mod_cast c.den_nz
  field_simp

/-- The confidence clamp is nonnegative. -/
theorem clamp01_nonneg (c : ℚ) : 0 ≤ clamp01 c := by
  simp only [clamp01, pyMax, pyMin]
  split_ifs <;> linarith

/-- The confidence clamp is at most one. -/
theorem clamp01_le_one (c : ℚ) : clamp01 c ≤ 1 := by
  simp only [clamp01, pyMax, pyMin]
  split_ifs <;> linarith

/-- C10: `reset_for_new_input` sets only the per-turn fields
(current input, current handler back to the Router, classification results,
continue flag, final response) and clears the two task-scratch dicts, while
`messages`, `handoff_history`, `error_count`, `last_error` and
`fallback_mode` are left untouched, so accumulated error and degradation
state persists across turns on the same state object. -/
theorem reset_for_new_input_frame (s : WorkflowState) (input : String) :
    ((s.reset_for_new_input input).messages = s.messages) ∧
    ((s.reset_for_new_input input).handoff_history = s.handoff_history) ∧
    ((s.reset_for_new_input input).error_count = s.error_count) ∧
    ((s.reset_for_new_input input).last_error = s.last_error) ∧
    ((s.reset_for_new_input input).fallback_mode = s.fallback_mode) ∧
    ((s.reset_for_new_input input).current_user_input = input) ∧
    ((s.reset_for_new_input input).current_agent = AgentType.SUPERVISOR) ∧
    ((s.reset_for_new_input input).detected_intent = none) ∧
    ((s.reset_for_new_input input).intent_confidence = 0) ∧
    ((s.reset_for_new_input input).should_continue = true) ∧
    ((s.reset_for_new_input input).final_response = none) ∧
    ((s.reset_for_new_input input).task_context = []) ∧
    ((s.reset_for_new_input input).intermediate_results = []) :=
  ⟨rfl, rfl, rfl, rfl, rfl, rfl, rfl, rfl, rfl, rfl, rfl, rfl, rfl⟩

/-- C9: the degradation level is a pure function of `error_count` alone,
with level "full" iff the count is 0, "limited" iff it is 1 or 2, "basic"
iff it is between 3 and 5, and "minimal" iff it is at least 6. -/
theorem determine_degradation_level_table (s t : WorkflowState) :
    (GracefulDegradation.determine_degradation_level s = "full" ↔
      s.error_count = 0) ∧
    (GracefulDegradation.determine_degradation_level s = "limited" ↔
      1 ≤ s.error_count ∧ s.error_count ≤ 2) ∧
    (GracefulDegradation.determine_degradation_level s = "basic" ↔
      3 ≤ s.error_count ∧ s.error_count ≤ 5) ∧
    (GracefulDegradation.determine_degradation_level s = "minimal" ↔
      6 ≤ s.error_count) ∧
    (s.error_count = t.error_count →
      GracefulDegradation.determine_degradation_level s =
        GracefulDegradation.determine_degradation_level t) := by
  refine ⟨?_, ?_, ?_, ?_, fun h => by
    simp only [GracefulDegradation.determine_degradation_level, h]⟩ <;>
    simp only [GracefulDegradation.determine_degradation_level] <;>
    split_ifs <;> simp_all <;> omega

/-- C2: the routing predicate dispatches to a specialist exactly when the
target is not the Router itself, the target is registered, and either the
confidence reaches the 0.7 threshold or the session is in fallback mode and
the confidence reaches 0.5. -/
theorem should_route_to_specialist_iff (available_agents : List AgentType)
    (state : WorkflowState) (target_agent : AgentType) (confidence : ℚ) :
    (SupervisorAgent.should_route_to_specialist available_agents state
      target_agent confidence = true) ↔
    (target_agent ≠ AgentType.SUPERVISOR ∧ target_agent ∈ available_agents ∧
      ((7:ℚ)/10 ≤ confidence ∨
        (state.fallback_mode = true ∧ (1:ℚ)/2 ≤ confidence))) := by
  have h7 : (mkRat 7 10 : ℚ) = 7/10 := by norm_num
  have h5 : (mkRat 5 10 : ℚ) = 1/2 := by norm_num
  simp only [SupervisorAgent.should_route_to_specialist, h7, h5]
  split_ifs with h1 h2 h3 h4 <;> simp_all

/-- C7: `classify_intent` is a total function of the abstracted backend
outcome (no exception reaches its caller); its returned confidence always
lies in [0, 1]; and when the try block raises, or the backend text has no
well-formed structured block or misses a required key, it returns the
catch-all "general" intent mapped to the Router with a fixed confidence of
0.1 respectively 0.2 (both in the low range [0.1, 0.2]) and a reasoning
string stating the failure. -/
theorem classify_intent_fail_soft (call : Except String RawResponse) :
    (0 ≤ (classify_intent call).confidence ∧
      (classify_intent call).confidence ≤ 1) ∧
    (∀ e, call = Except.error e →
      (classify_intent call).intent = "general" ∧
      (classify_intent call).confidence = mkRat 1 10 ∧
      (classify_intent call).reasoning =
        "Classification failed: " ++ e ++ ". Using fallback." ∧
      (classify_intent call).agent = AgentType.SUPERVISOR) ∧
    (∀ e, call = Except.ok (RawResponse.malformed e) →
      (classify_intent call).intent = "general" ∧
      (classify_intent call).confidence = mkRat 2 10 ∧
      (classify_intent call).reasoning =
        "Failed to parse classification response: " ++ e ∧
      (classify_intent call).agent = AgentType.SUPERVISOR) ∧
    ((mkRat 1 10 : ℚ) = 1/10 ∧ (mkRat 2 10 : ℚ) = 2/10) := by
  refine ⟨?_, ?_, ?_, by norm_num, by norm_num⟩
  · rcases call with e | raw
    · simp only [classify_intent]
      norm_num
    · rcases raw with e | ⟨i, c, r⟩
      · have hg : IntentCategory.ofString? (pyLower IntentCategory.GENERAL.value) =
            some IntentCategory.GENERAL := by decide
        simp only [classify_intent, parse_classification_response, hg]
        norm_num
      · rcases h : IntentCategory.ofString? (pyLower i) with _ | cat <;>
          simp only [classify_intent, parse_classification_response, h]
        · constructor
          · simp only [pyMax]
            split_ifs with hm
            · have h0 : (0:ℚ) ≤ mkRat 1 10 := by norm_num
              exact le_trans h0 hm
            · norm_num
          · have h1 : halve (clamp01 c) ≤ 1 := by
              rw [halve_eq]
              have := clamp01_le_one c
              linarith
            simp only [pyMax]
            split_ifs with hm
            · exact h1
            · norm_num
        · exact ⟨clamp01_nonneg c, clamp01_le_one c⟩
  · intro e he
    subst he
    exact ⟨rfl, rfl, rfl, rfl⟩
  · intro e he
    subst he
    exact ⟨rfl, rfl, rfl, rfl⟩

/-- Witness for C7 at concrete failing backend outcomes. -/
theorem classify_intent_fail_soft_witness :
    (classify_intent (Except.error "backend down")).confidence = mkRat 1 10 ∧
    (classify_intent (Except.ok (RawResponse.malformed "No JSON"))).confidence =
      mkRat 2 10 := by
  have h1 := (classify_intent_fail_soft (Except.error "backend down")).2.1
    "backend down" rfl
  have h2 := (classify_intent_fail_soft
    (Except.ok (RawResponse.malformed "No JSON"))).2.2.1 "No JSON" rfl
  exact ⟨h1.2.1, h2.2.1⟩

/-- C8 counterexample: with an unknown intent label and reported confidence
0.1 (inside [0,1], so clamping is the identity), the returned confidence is
0.1 — strictly more than 0.5 times the reported clamped value (0.05) — so
the claimed attenuation bound fails for reported values below 0.2. -/
theorem unknown_intent_confidence_floor_cex :
    ((classify_intent
        (Except.ok (RawResponse.parsed "quantum" (mkRat 1 10) "guess"))).confidence
      = mkRat 1 10) ∧
    clamp01 (mkRat 1 10) = mkRat 1 10 ∧
    (mkRat 1 20 : ℚ) = (1/2) * mkRat 1 10 ∧
    ¬ ((classify_intent
        (Except.ok (RawResponse.parsed "quantum" (mkRat 1 10) "guess"))).confidence
      ≤ mkRat 1 20) :=
  ⟨by decide, by decide, by norm_num, by decide⟩

/-- C8 amended: an unknown intent label keeps its text but is routed to the
Router with the note appended, and the returned confidence is
max(0.1, 0.5 x clamped reported value): equal to half the clamped value —
and hence at most 0.5 times it — whenever the clamped value is at least
0.2, and floored at the constant 0.1 when the clamped value is below 0.2. -/
theorem unknown_intent_attenuation (i : String) (c : ℚ) (r : String)
    (h : IntentCategory.ofString? (pyLower i) = none) :
    (classify_intent (Except.ok (RawResponse.parsed i c r)) =
      ⟨i, pyMax (mkRat 1 10) (halve (clamp01 c)),
       r ++ " (Unknown intent, routing to supervisor)", AgentType.SUPERVISOR⟩) ∧
    (halve (clamp01 c) = clamp01 c * (1/2)) ∧
    ((2:ℚ)/10 ≤ clamp01 c →
      (classify_intent (Except.ok (RawResponse.parsed i c r))).confidence =
        (1/2) * clamp01 c) ∧
    (clamp01 c < (2:ℚ)/10 →
      (classify_intent (Except.ok (RawResponse.parsed i c r))).confidence =
        mkRat 1 10) := by
  have h10 : (mkRat 1 10 : ℚ) = 1/10 := by norm_num
  have hcl : classify_intent (Except.ok (RawResponse.parsed i c r)) =
      ⟨i, pyMax (mkRat 1 10) (halve (clamp01 c)),
       r ++ " (Unknown intent, routing to supervisor)", AgentType.SUPERVISOR⟩ := by
    simp only [classify_intent, parse_classification_response, h]
  refine ⟨hcl, halve_eq _, ?_, ?_⟩
  · intro hge
    rw [hcl]
    simp only [pyMax, halve_eq]
    split_ifs with hm
    · ring
    · exfalso
      rw [h10] at hm
      linarith
  · intro hlt
    rw [hcl]
    simp only [pyMax, halve_eq]
    split_ifs with hm
    · exfalso
      rw [h10] at hm
      linarith
    · rfl

/-- Witness for the amended C8 theorem at a concrete unknown label. -/
theorem unknown_intent_attenuation_witness :
    (classify_intent
      (Except.ok (RawResponse.parsed "quantum" (mkRat 8 10) "w"))).confidence =
      (1/2) * clamp01 (mkRat 8 10) := by
  have hc : clamp01 (mkRat 8 10) = mkRat 8 10 := by decide
  refine (unknown_intent_attenuation "quantum" (mkRat 8 10) "w" (by decide)).2.2.1 ?_
  rw [hc]
  norm_num

/-- Appending a message tagged with handler `a` raises its tag count by
exactly one. -/
theorem countTag_append_tagged (a : AgentType) (ms : List Message)
    (role : MessageRole) (content : String) :
    countTag a (ms ++ [⟨role, content, some a⟩]) = countTag a ms + 1 := by
  simp [countTag, List.countP_append, List.countP_cons]

/-- Field effects of `update_state_with_response`: it sets the final
response, appends exactly one tagged assistant message, and leaves the
handoff ledger, the current handler and the error count alone. -/
theorem update_state_with_response_effects (a : AgentType) (s : WorkflowState)
    (r : String) :
    (update_state_with_response a s r).final_response = some r ∧
    (update_state_with_response a s r).messages =
      s.messages ++ [⟨MessageRole.ASSISTANT, r, some a⟩] ∧
    (update_state_with_response a s r).handoff_history = s.handoff_history ∧
    (update_state_with_response a s r).current_agent = s.current_agent ∧
    (update_state_with_response a s r).error_count = s.error_count :=
  ⟨rfl, rfl, rfl, rfl, rfl⟩

/-- Field effects of `handle_error`: one error increment, one tagged
fallback message, and no change to the final response, the ledger or the
current handler. -/
theorem handle_error_effects (a : AgentType) (n f : String) (s : WorkflowState)
    (e : String) :
    (handle_error a n f s e).final_response = s.final_response ∧
    (handle_error a n f s e).error_count = s.error_count + 1 ∧
    (handle_error a n f s e).messages =
      s.messages ++ [⟨MessageRole.ASSISTANT, f, some a⟩] ∧
    (handle_error a n f s e).handoff_history = s.handoff_history ∧
    (handle_error a n f s e).current_agent = s.current_agent ∧
    (handle_error a n f s e).last_error = some ("Error in " ++ n ++ ": " ++ e) :=
  ⟨rfl, rfl, rfl, rfl, rfl, rfl⟩

/-- A specialist's process step always reports exactly one invocation of
itself, appends exactly one message tagged with its identity, and leaves
the handoff ledger and the current handler alone. -/
theorem sp_process_effects (env : Env) (sp : SpecialistAgent) (k : Nat)
    (s : WorkflowState) :
    ((sp.process_request env k s).2.2 = [sp.agent_type]) ∧
    ((sp.process_request env k s).1.handoff_history = s.handoff_history) ∧
    ((sp.process_request env k s).1.current_agent = s.current_agent) ∧
    (countTag sp.agent_type (sp.process_request env k s).1.messages =
      countTag sp.agent_type s.messages + 1) := by
  rcases hf : env.specialistFailure sp.agent_type with _ | e <;>
    refine ⟨?_, ?_, ?_, ?_⟩ <;>
      simp [SpecialistAgent.process_request, hf, update_state_with_response,
        WorkflowState.add_message, handle_error, WorkflowState.record_error,
        countTag_append_tagged]

/-- The registry lookup returns a specialist whose identity is the key. -/
theorem specialistOf?_agent_type (t : AgentType) (sp : SpecialistAgent)
    (h : specialistOf? t = some sp) : sp.agent_type = t := by
  cases t
  · exact Option.noConfusion h
  · injection h with h
    subst h
    rfl
  · injection h with h
    subst h
    rfl
  · injection h with h
    subst h
    rfl
  · injection h with h
    subst h
    rfl

/-- A true routing decision never targets the Router itself. -/
theorem should_route_target_ne (avail : List AgentType) (s : WorkflowState)
    (t : AgentType) (c : ℚ)
    (h : SupervisorAgent.should_route_to_specialist avail s t c = true) :
    t ≠ AgentType.SUPERVISOR := by
  intro he
  subst he
  simp [SupervisorAgent.should_route_to_specialist] at h

/-- Direct handling by the Router preserves the ledger and the current
handler and always produces a final response. -/
theorem handle_directly_effects (env : Env) (k : Nat) (s : WorkflowState) :
    ((SupervisorAgent.handle_directly env k s).1.handoff_history =
      s.handoff_history) ∧
    ((SupervisorAgent.handle_directly env k s).1.current_agent =
      s.current_agent) ∧
    ∃ t, (SupervisorAgent.handle_directly env k s).1.final_response = some t :=
  ⟨rfl, rfl, ⟨_, rfl⟩⟩

/-- Dispatching to a specialist preserves the ledger and the current
handler, and its invocation trace is empty (declined or lookup failure) or
the single invoked specialist, which carries the target's identity. -/
theorem route_to_specialist_effects (env : Env) (k : Nat) (s : WorkflowState)
    (t : AgentType) :
    ((SupervisorAgent.route_to_specialist env k s t).1.handoff_history =
      s.handoff_history) ∧
    ((SupervisorAgent.route_to_specialist env k s t).1.current_agent =
      s.current_agent) ∧
    ((SupervisorAgent.route_to_specialist env k s t).2.2 = [] ∨
      (SupervisorAgent.route_to_specialist env k s t).2.2 = [t]) := by
  rcases hsp : specialistOf? t with _ | sp
  · refine ⟨?_, ?_, Or.inl ?_⟩ <;>
      simp [SupervisorAgent.route_to_specialist, hsp,
        SupervisorAgent.handle_directly, update_state_with_response,
        WorkflowState.add_message, WorkflowState.record_error]
  · by_cases hch : sp.can_handle_request s.current_user_input s.detected_intent
    · have hmsg := sp_process_effects env sp k
        (s.add_message MessageRole.ASSISTANT
          ("I" ++ apos ++ "ll help you with that " ++
            (match s.detected_intent with
             | some i => i
             | none => "None") ++
            " request. Let me route this to our " ++ sp.name ++ ".")
          (some AgentType.SUPERVISOR))
      refine ⟨?_, ?_, Or.inr ?_⟩ <;>
        simp only [SupervisorAgent.route_to_specialist, hsp, hch,
          Bool.not_true, Bool.false_eq_true, if_false]
      · exact hmsg.2.1
      · exact hmsg.2.2.1
      · rw [hmsg.1, specialistOf?_agent_type t sp hsp]
    · refine ⟨?_, ?_, Or.inl ?_⟩ <;>
        simp [SupervisorAgent.route_to_specialist, hsp, hch,
          SupervisorAgent.handle_directly, update_state_with_response,
          WorkflowState.add_message, WorkflowState.record_error]


/-- The classification bookkeeping appends exactly the classification
handoff and changes neither the current handler nor the fallback flag. -/
theorem classify_and_record_effects (env : Env) (s : WorkflowState) :
    ((SupervisorAgent.classify_and_record env s).handoff_history =
      s.handoff_history ++
        [⟨AgentType.SUPERVISOR, (classify_intent env.classifierCall).agent,
          (classify_intent env.classifierCall).intent,
          (classify_intent env.classifierCall).confidence,
          (classify_intent env.classifierCall).reasoning⟩]) ∧
    ((SupervisorAgent.classify_and_record env s).current_agent =
      s.current_agent) ∧
    ((SupervisorAgent.classify_and_record env s).fallback_mode =
      s.fallback_mode) :=
  ⟨rfl, rfl, rfl⟩

/-- Effects of one supervisor step: it appends exactly the classification
handoff to the ledger; its specialist-invocation trace is empty or exactly
the classified (non-Router) target; and the resulting current handler is
the classified target when the routing decision is positive and unchanged
when it is negative. -/
theorem sup_process_effects (env : Env) (k : Nat) (s : WorkflowState) :
    ((SupervisorAgent.process_request env k s).1.handoff_history =
      s.handoff_history ++
        [⟨AgentType.SUPERVISOR, (classify_intent env.classifierCall).agent,
          (classify_intent env.classifierCall).intent,
          (classify_intent env.classifierCall).confidence,
          (classify_intent env.classifierCall).reasoning⟩]) ∧
    ((SupervisorAgent.process_request env k s).2.2 = [] ∨
      ((SupervisorAgent.process_request env k s).2.2 =
        [(classify_intent env.classifierCall).agent] ∧
       (classify_intent env.classifierCall).agent ≠ AgentType.SUPERVISOR)) ∧
    (SupervisorAgent.should_route_to_specialist registered_agents
        (SupervisorAgent.classify_and_record env s)
        (classify_intent env.classifierCall).agent
        (classify_intent env.classifierCall).confidence = true →
      (SupervisorAgent.process_request env k s).1.current_agent =
        (classify_intent env.classifierCall).agent) ∧
    (SupervisorAgent.should_route_to_specialist registered_agents
        (SupervisorAgent.classify_and_record env s)
        (classify_intent env.classifierCall).agent
        (classify_intent env.classifierCall).confidence = false →
      (SupervisorAgent.process_request env k s).1.current_agent =
        s.current_agent) := by
  cases hb : SupervisorAgent.should_route_to_specialist registered_agents
      (SupervisorAgent.classify_and_record env s)
      (classify_intent env.classifierCall).agent
      (classify_intent env.classifierCall).confidence
  · have hhd := handle_directly_effects env k
      (SupervisorAgent.classify_and_record env s)
    refine ⟨?_, Or.inl ?_, fun h => Bool.noConfusion h, fun _ => ?_⟩
    · simp only [SupervisorAgent.process_request, hb, Bool.false_eq_true,
        if_false]
      rw [hhd.1]
      exact (classify_and_record_effects env s).1
    · simp only [SupervisorAgent.process_request, hb, Bool.false_eq_true,
        if_false]
    · simp only [SupervisorAgent.process_request, hb, Bool.false_eq_true,
        if_false]
      rw [hhd.2.1]
      exact (classify_and_record_effects env s).2.1
  · have hrt := route_to_specialist_effects env k
      { SupervisorAgent.classify_and_record env s with
        current_agent := (classify_intent env.classifierCall).agent }
      (classify_intent env.classifierCall).agent
    refine ⟨?_, ?_, fun _ => ?_, fun h => Bool.noConfusion h⟩
    · simp only [SupervisorAgent.process_request, hb, if_true]
      rw [hrt.1]
      exact (classify_and_record_effects env s).1
    · simp only [SupervisorAgent.process_request, hb, if_true]
      rcases hrt.2.2 with h | h
      · exact Or.inl h
      · exact Or.inr ⟨h, should_route_target_ne _ _ _ _ hb⟩
    · simp only [SupervisorAgent.process_request, hb, if_true]
      rw [hrt.2.1]

/-- One graph run decomposed: the final ledger is the supervisor step's
ledger (handler nodes never touch it), and the trace is one Router step,
the supervisor's inner trace, and at most one handler-node step. -/
theorem graph_invoke_parts (env : Env) (s : WorkflowState) :
    ((graph_invoke env s).1.handoff_history =
      (SupervisorAgent.process_request env 0 s).1.handoff_history) ∧
    ∃ l2 : List AgentType,
      (graph_invoke env s).2 =
        (AgentType.SUPERVISOR :: (SupervisorAgent.process_request env 0 s).2.2)
          ++ l2 ∧
      (l2 = [] ∨ l2 = [AgentType.RESEARCH] ∨ l2 = [AgentType.CODE] ∨
        l2 = [AgentType.WRITING] ∨ l2 = [AgentType.DATA]) := by
  simp only [graph_invoke, supervisor_node, specialist_node]
  split_ifs with h1 h2 h3 h4
  · refine ⟨(sp_process_effects env research_agent _ _).2.1,
      [AgentType.RESEARCH], ?_, by simp⟩
    rw [(sp_process_effects env research_agent _ _).1]
    rfl
  · refine ⟨(sp_process_effects env code_agent _ _).2.1,
      [AgentType.CODE], ?_, by simp⟩
    rw [(sp_process_effects env code_agent _ _).1]
    rfl
  · refine ⟨(sp_process_effects env writing_agent _ _).2.1,
      [AgentType.WRITING], ?_, by simp⟩
    rw [(sp_process_effects env writing_agent _ _).1]
    rfl
  · refine ⟨(sp_process_effects env data_agent _ _).2.1,
      [AgentType.DATA], ?_, by simp⟩
    rw [(sp_process_effects env data_agent _ _).1]
    rfl
  · exact ⟨rfl, [], by simp, by simp⟩

/-- A truthy optional string is a present, non-empty string. -/
theorem pyTruthyStr_true {o : Option String} (h : pyTruthyStr o = true) :
    ∃ t, o = some t ∧ t ≠ "" := by
  rcases o with _ | t
  · simp [pyTruthyStr] at h
  · refine ⟨t, rfl, ?_⟩
    simpa [pyTruthyStr] using h

/-- C1 amended: the turn entry point is a total function (no exception
reaches its caller) and always returns a state whose final response is a
present, non-empty text; a failure of the workflow machinery itself is
converted into the generic apology plus exactly one error-count increment.
(Failures of the language-model backend below the handler boundary are
converted to fallback text without touching the error count — see the
counterexample.) -/
theorem process_user_input_total_nonempty (env : Env) (input : String) :
    (∃ t, (MultiAgentGraphBuilder.process_user_input env input).final_response =
        some t ∧ t ≠ "") ∧
    (∀ e, env.invokeFailure = some e →
      (MultiAgentGraphBuilder.process_user_input env input).error_count = 1 ∧
      (MultiAgentGraphBuilder.process_user_input env input).final_response =
        some workflow_error_apology) := by
  constructor
  · rcases hf : env.invokeFailure with _ | e
    · simp only [MultiAgentGraphBuilder.process_user_input,
        MultiAgentGraphBuilder.process_user_input_run, hf]
      cases hr : pyTruthyStr
          (graph_invoke env
            (WorkflowState.reset_for_new_input {} input)).1.final_response
      · simp only [hr, Bool.false_eq_true, if_false]
        exact ⟨no_response_apology, rfl, by decide⟩
      · simp only [hr, if_true]
        exact pyTruthyStr_true hr
    · simp only [MultiAgentGraphBuilder.process_user_input,
        MultiAgentGraphBuilder.process_user_input_run, hf]
      exact ⟨workflow_error_apology, rfl, by decide⟩
  · intro e he
    constructor <;>
      simp [MultiAgentGraphBuilder.process_user_input,
        MultiAgentGraphBuilder.process_user_input_run, he,
        WorkflowState.record_error, WorkflowState.reset_for_new_input]

/-- Witness for the amended C1 theorem: a concrete turn with an injected
workflow failure returns the generic apology and error count one. -/
theorem process_user_input_total_nonempty_witness :
    (MultiAgentGraphBuilder.process_user_input
      { classifierCall := Except.error "down", llm := fun _ => Except.error "down",
        specialistFailure := fun _ => none, invokeFailure := some "thread crash" }
      "hi").error_count = 1 :=
  ((process_user_input_total_nonempty
    { classifierCall := Except.error "down", llm := fun _ => Except.error "down",
      specialistFailure := fun _ => none, invokeFailure := some "thread crash" }
    "hi").2 "thread crash" rfl).1

/-- C1 counterexample: a turn in which the language-model backend raises on
the generation call (an internal failure in the spec's taxonomy) completes
with the apology text as its response but with error count 0: the failure
is converted to a fallback response without any error-count increment. -/
theorem backend_failure_no_error_increment :
    envBackendDown.llm 0 = Except.error "connection refused" ∧
    (MultiAgentGraphBuilder.process_user_input envBackendDown "hi").final_response
      = some ("I apologize, but I encountered an error while processing your request: connection refused") ∧
    (MultiAgentGraphBuilder.process_user_input envBackendDown "hi").error_count
      = 0 :=
  ⟨rfl, by decide, by decide⟩

/-- Trace counts of one graph run: the Router steps exactly once, every
other handler's process runs at most twice. -/
theorem graph_trace_counts (env : Env) (s : WorkflowState) :
    ((graph_invoke env s).2.count AgentType.SUPERVISOR = 1) ∧
    (∀ a : AgentType, a ≠ AgentType.SUPERVISOR →
      (graph_invoke env s).2.count a ≤ 2) := by
  obtain ⟨-, l2, htr, hl2⟩ := graph_invoke_parts env s
  have hsup := (sup_process_effects env 0 s).2.1
  have hl2len : l2.length ≤ 1 := by
    rcases hl2 with h | h | h | h | h <;> subst h <;> simp
  have hl2S : AgentType.SUPERVISOR ∉ l2 := by
    rcases hl2 with h | h | h | h | h <;> subst h <;> simp
  have htr1len : (SupervisorAgent.process_request env 0 s).2.2.length ≤ 1 := by
    rcases hsup with h | ⟨h, -⟩ <;> rw [h] <;> simp
  have htr1S : AgentType.SUPERVISOR ∉
      (SupervisorAgent.process_request env 0 s).2.2 := by
    rcases hsup with h | ⟨h, hne⟩ <;> rw [h]
    · simp
    · simp only [List.mem_singleton]
      exact fun hx => hne hx.symm
  constructor
  · have h1 : (SupervisorAgent.process_request env 0 s).2.2.count
        AgentType.SUPERVISOR = 0 := List.count_eq_zero.mpr htr1S
    have h2 : l2.count AgentType.SUPERVISOR = 0 := List.count_eq_zero.mpr hl2S
    rw [htr, List.count_append, List.count_cons_self, h1, h2]
  · intro a ha
    have h1 : (SupervisorAgent.process_request env 0 s).2.2.count a ≤ 1 :=
      le_trans (List.count_le_length _ _) htr1len
    have h2 : l2.count a ≤ 1 := le_trans (List.count_le_length _ _) hl2len
    rw [htr, List.count_append, List.count_cons_of_ne ha]
    omega

/-- C3 amended: per turn the graph performs the Router step exactly once
(never when the workflow machinery fails before it) and invokes each
specialist's process at most twice — once inside the Router step and once
as the specialist's own graph node — while each single invocation of a
specialist's process appends exactly one assistant message tagged with its
identity. -/
theorem handler_step_counts (env : Env) (input : String) :
    ((MultiAgentGraphBuilder.process_user_input_run env input).2.count
      AgentType.SUPERVISOR ≤ 1) ∧
    (∀ a : AgentType, a ≠ AgentType.SUPERVISOR →
      (MultiAgentGraphBuilder.process_user_input_run env input).2.count a ≤ 2) ∧
    (∀ (sp : SpecialistAgent) (k : Nat) (s : WorkflowState),
      countTag sp.agent_type (sp.process_request env k s).1.messages =
        countTag sp.agent_type s.messages + 1) := by
  refine ⟨?_, ?_, fun sp k s => (sp_process_effects env sp k s).2.2.2⟩ <;>
    rcases hf : env.invokeFailure with _ | e
  · simp only [MultiAgentGraphBuilder.process_user_input_run, hf]
    cases hr : pyTruthyStr
        (graph_invoke env
          (WorkflowState.reset_for_new_input {} input)).1.final_response <;>
      simp only [hr, Bool.false_eq_true, if_false, if_true] <;>
      exact le_of_eq (graph_trace_counts env _).1
  · simp [MultiAgentGraphBuilder.process_user_input_run, hf]
  · intro a ha
    simp only [MultiAgentGraphBuilder.process_user_input_run, hf]
    cases hr : pyTruthyStr
        (graph_invoke env
          (WorkflowState.reset_for_new_input {} input)).1.final_response <;>
      simp only [hr, Bool.false_eq_true, if_false, if_true] <;>
      exact (graph_trace_counts env _).2 a ha
  · intro a ha
    simp [MultiAgentGraphBuilder.process_user_input_run, hf]

/-- Witness for the amended C3 theorem at a concrete dispatched turn and a
concrete non-Router handler. -/
theorem handler_step_counts_witness :
    (MultiAgentGraphBuilder.process_user_input_run envDispatch
      "please fix my python code").2.count AgentType.CODE ≤ 2 :=
  (handler_step_counts envDispatch "please fix my python code").2.1
    AgentType.CODE (by decide)

/-- C3 counterexample: in a dispatched turn the chosen specialist's process
runs twice — the trace is Router, Code, Code — and two assistant messages
tagged with the Code handler are appended, contradicting at most one
handler step per turn combined with one tagged message per invocation. -/
theorem dispatched_turn_double_handler_execution :
    (MultiAgentGraphBuilder.process_user_input_run envDispatch
      "please fix my python code").2 =
      [AgentType.SUPERVISOR, AgentType.CODE, AgentType.CODE] ∧
    countTag AgentType.CODE
      (MultiAgentGraphBuilder.process_user_input envDispatch
        "please fix my python code").messages = 2 :=
  ⟨by decide, by decide⟩

/-- C4 amended: a supervisor step always appends a handoff naming the
classified target as its most recent record; the resulting current handler
equals that record's `to` field exactly when the routing decision was
positive, and otherwise remains what it was (the Router at the start of a
turn) even though the freshly recorded handoff names the classified
target; with no handoff this turn, a freshly reset state's current handler
is the Router. -/
theorem current_agent_vs_handoff (env : Env) (k : Nat) (s : WorkflowState)
    (input : String) :
    ((s.reset_for_new_input input).current_agent = AgentType.SUPERVISOR) ∧
    ((SupervisorAgent.process_request env k s).1.handoff_history.getLast? =
      some ⟨AgentType.SUPERVISOR, (classify_intent env.classifierCall).agent,
        (classify_intent env.classifierCall).intent,
        (classify_intent env.classifierCall).confidence,
        (classify_intent env.classifierCall).reasoning⟩) ∧
    (SupervisorAgent.should_route_to_specialist registered_agents
        (SupervisorAgent.classify_and_record env s)
        (classify_intent env.classifierCall).agent
        (classify_intent env.classifierCall).confidence = true →
      (SupervisorAgent.process_request env k s).1.current_agent =
        (classify_intent env.classifierCall).agent) ∧
    (SupervisorAgent.should_route_to_specialist registered_agents
        (SupervisorAgent.classify_and_record env s)
        (classify_intent env.classifierCall).agent
        (classify_intent env.classifierCall).confidence = false →
      (SupervisorAgent.process_request env k s).1.current_agent =
        s.current_agent) := by
  have h := sup_process_effects env k s
  refine ⟨rfl, ?_, h.2.2.1, h.2.2.2⟩
  rw [h.1, List.getLast?_concat]

/-- Witness for the amended C4 theorem: a borderline-confidence turn is
handled locally and the current handler stays what it was before the
supervisor step. -/
theorem current_agent_vs_handoff_witness :
    (SupervisorAgent.process_request envBorderline 0
      (WorkflowState.reset_for_new_input {} "hello there")).1.current_agent =
      (WorkflowState.reset_for_new_input {} "hello there").current_agent :=
  (current_agent_vs_handoff envBorderline 0
    (WorkflowState.reset_for_new_input {} "hello there") "hello there").2.2.2
    (by decide)

/-- C4 counterexample: after a turn whose classification names the Code
handler with confidence 0.4 (below both thresholds), the most recent
handoff's `to` field is the Code handler while the session's current
handler is the Router — the claimed equality fails while a handoff for this
turn exists. -/
theorem current_agent_differs_from_last_handoff :
    ((MultiAgentGraphBuilder.process_user_input envBorderline
      "hello there").handoff_history.getLast?).map AgentHandoff.to_agent =
      some AgentType.CODE ∧
    (MultiAgentGraphBuilder.process_user_input envBorderline
      "hello there").current_agent = AgentType.SUPERVISOR ∧
    AgentType.CODE ≠ AgentType.SUPERVISOR :=
  ⟨by decide, by decide, by decide⟩

/-- C5 amended: no handoff-count maximum is enforced anywhere —
`add_handoff` appends unconditionally and changes neither the final
response nor the error count nor the continue flag — and the ledger of a
returned turn nevertheless holds at most one record, because every turn
starts from a fresh state and the Router records exactly one
classification handoff per turn. -/
theorem handoff_ledger_growth :
    (∀ (s : WorkflowState) (fa ta : AgentType) (i : String) (c : ℚ)
        (r : String),
      ((s.add_handoff fa ta i c r).handoff_history.length =
        s.handoff_history.length + 1) ∧
      ((s.add_handoff fa ta i c r).final_response = s.final_response) ∧
      ((s.add_handoff fa ta i c r).error_count = s.error_count) ∧
      ((s.add_handoff fa ta i c r).should_continue = s.should_continue)) ∧
    (∀ (env : Env) (input : String),
      (MultiAgentGraphBuilder.process_user_input
        env input).handoff_history.length ≤ 1) := by
  constructor
  · intro s fa ta i c r
    refine ⟨?_, rfl, rfl, rfl⟩
    simp [WorkflowState.add_handoff]
  · intro env input
    rcases hf : env.invokeFailure with _ | e
    · have hg := (graph_invoke_parts env
        (WorkflowState.reset_for_new_input {} input)).1
      have hs := (sup_process_effects env 0
        (WorkflowState.reset_for_new_input {} input)).1
      have hlen : (graph_invoke env
          (WorkflowState.reset_for_new_input {} input)).1.handoff_history.length
          = 1 := by
        rw [hg, hs]
        simp [WorkflowState.reset_for_new_input]
      simp only [MultiAgentGraphBuilder.process_user_input,
        MultiAgentGraphBuilder.process_user_input_run, hf]
      cases hr : pyTruthyStr
          (graph_invoke env
            (WorkflowState.reset_for_new_input {} input)).1.final_response <;>
        simp only [hr, Bool.false_eq_true, if_false, if_true]
      · simpa [WorkflowState.record_error] using le_of_eq hlen
      · exact le_of_eq hlen
    · simp [MultiAgentGraphBuilder.process_user_input,
        MultiAgentGraphBuilder.process_user_input_run, hf,
        WorkflowState.record_error, WorkflowState.reset_for_new_input]

/-- C5 counterexample: a ledger grown to 21 records by `add_handoff` —
beyond any plausible configured maximum, and none is configured anywhere in
the repository — still has no final response, no recorded error and an
untouched continue flag: no routing guard forces a degraded terminal
response. -/
theorem no_handoff_limit_enforced :
    (iterated_handoffs 21).handoff_history.length = 21 ∧
    (iterated_handoffs 21).error_count = 0 ∧
    (iterated_handoffs 21).final_response = none ∧
    (iterated_handoffs 21).should_continue = true :=
  ⟨by decide, by decide, by decide, by decide⟩

/-- C6 amended: a specialist's process step is total (no exception escapes
the handler boundary); on the success path it sets the final response; on
an internal failure it converts the failure into the handler-specific
fallback text appended as exactly one assistant message plus exactly one
error-count increment, recording the error message — but it leaves
`final_response` unchanged (hence unset), which the turn entry point later
replaces with the generic fallback. -/
theorem handler_process_contract (env : Env) (sp : SpecialistAgent) (k : Nat)
    (s : WorkflowState) :
    (∀ e, env.specialistFailure sp.agent_type = some e →
      ((sp.process_request env k s).1.final_response = s.final_response) ∧
      ((sp.process_request env k s).1.error_count = s.error_count + 1) ∧
      ((sp.process_request env k s).1.messages =
        s.messages ++
          [⟨MessageRole.ASSISTANT, sp.fallbackText, some sp.agent_type⟩]) ∧
      ((sp.process_request env k s).1.last_error =
        some ("Error in " ++ sp.name ++ ": " ++ e))) ∧
    (env.specialistFailure sp.agent_type = none →
      ∃ t, ((sp.process_request env k s).1.final_response = some t) ∧
        (sp.process_request env k s).1.error_count = s.error_count) := by
  constructor
  · intro e he
    refine ⟨?_, ?_, ?_, ?_⟩ <;>
      simp only [SpecialistAgent.process_request, he]
    · exact (handle_error_effects _ _ _ _ _).1
    · exact (handle_error_effects _ _ _ _ _).2.1
    · exact (handle_error_effects _ _ _ _ _).2.2.1
    · exact (handle_error_effects _ _ _ _ _).2.2.2.2.2
  · intro he
    refine ⟨sp.postprocess s (generate_response env k).1, ?_, ?_⟩ <;>
      simp only [SpecialistAgent.process_request, he]
    · rfl
    · rfl

/-- Witness for the amended C6 theorem: the Code Agent with an injected
internal failure increments the error count by exactly one. -/
theorem handler_process_contract_witness :
    (code_agent.process_request envCodeFailure 0
      (WorkflowState.reset_for_new_input {} "x")).1.error_count =
      (WorkflowState.reset_for_new_input {} "x").error_count + 1 :=
  ((handler_process_contract envCodeFailure code_agent 0
    (WorkflowState.reset_for_new_input {} "x")).1
    "simulated failure" (by decide)).2.1

/-- C6 counterexample: the Code Agent's process step, invoked on a fresh
state with an injected internal failure, returns with `final_response`
still `None` (its `handle_error` never sets it), while recording one
error. -/
theorem handler_failure_leaves_final_response_unset :
    ((code_agent.process_request envCodeFailure 0
      (WorkflowState.reset_for_new_input {} "please fix my python code")).1.final_response
      = none) ∧
    ((code_agent.process_request envCodeFailure 0
      (WorkflowState.reset_for_new_input {} "please fix my python code")).1.error_count
      = 1) :=
  ⟨by decide, by decide⟩

/-- Witness for C9: two states with the same error count (4) but different
other fields map to the same degradation level. -/
theorem determine_degradation_level_table_witness :
    GracefulDegradation.determine_degradation_level
      ({ error_count := 4 } : WorkflowState) =
    GracefulDegradation.determine_degradation_level
      ({ error_count := 4, last_error := some "x" } : WorkflowState) :=
  (determine_degradation_level_table ({ error_count := 4 } : WorkflowState)
    ({ error_count := 4, last_error := some "x" } : WorkflowState)).2.2.2.2 rfl
